import Mathlib

/-!
Verification of the HomeWhiz Home Assistant custom integration
(custom_components/homewhiz). The Python sources are shallowly embedded:
the coordinator payload (a bytearray or a JSON dict) becomes an inductive
type, entity value properties become pure functions over an optional
payload, the config-entry storage reconstruction (helper.build_entry_data)
becomes an explicit function over the stored shapes with the external
dacite deserializers passed as parameters, and the config-flow steps
become pure functions of their fetch outcomes. Python strings are
modelled as Lean strings where only equality matters and as character
lists where character-level operations (prefix test, lowercase, split)
matter.
-/

namespace HomeWhiz

/-! ### Coordinator payload

`coordinator.data` in the Python code is `None`, a byte buffer
(bytearray), or a small JSON dict mapping function keys to scalar
values.  Bytes are modelled as natural numbers (< 256 in practice) and
dict values as primitive JSON scalars. -/

/-- Scalar value stored under a function key in a dict-shaped payload. -/
inductive FuncValue where
  | intVal (i : Int)
  | strVal (s : String)
  deriving DecidableEq, Repr

/-- The raw status payload delivered by the coordinator: either a byte
buffer or a JSON dict (sensor.py handles both shapes). -/
inductive Payload where
  | bytes (raw : List Nat)
  | dict (entries : List (String × FuncValue))
  deriving DecidableEq, Repr

/-- First-match lookup, the embedding of Python `dict.get(key)` on the
association-list model of a dict. -/
def lookupKey {α : Type} (k : String) : List (String × α) → Option α
  | [] => none
  | (k', v) :: rest => if k' = k then some v else lookupKey k rest

/-! ### Hex rendering, the embedding of `bytes.hex()` -/

/-- One lowercase hex digit (0-9, a-f) for a value below 16. -/
def hexDigit (n : Nat) : Char :=
  if n < 10 then Char.ofNat (48 + n) else Char.ofNat (87 + n)

/-- Two lowercase hex digits for one byte, as `bytes.hex()` renders it. -/
def byteHex (b : Nat) : List Char :=
  [hexDigit (b / 16), hexDigit (b % 16)]

/-- Hex text of a byte buffer: the concatenation of each byte's two
digits, as `bytes.hex()` produces. -/
def bytesHex (bs : List Nat) : List Char :=
  (bs.map byteHex).flatten

/-! ### Control-driven entity values (sensor.py / binary_sensor.py / switch.py)

Each entity's value property first checks `self.coordinator.data is None`
and otherwise returns `self._control.get_value(self.coordinator.data)`
unchanged.  The control's `get_value` (defined in appliance_controls.py)
is passed in as a function; its result may itself be `None`, hence the
`Option` codomain. -/

/-- `HomeWhizSensorEntity.native_value` (sensor.py lines 94-108). -/
def sensorNativeValue {V : Type} (getValue : Payload → Option V)
    (data : Option Payload) : Option V :=
  match data with
  | none => none
  | some payload => getValue payload

/-- `HomeWhizBinarySensorEntity.is_on` (binary_sensor.py lines 38-42). -/
def binarySensorIsOn (getValue : Payload → Option Bool)
    (data : Option Payload) : Option Bool :=
  match data with
  | none => none
  | some payload => getValue payload

/-- `HomeWhizSwitchEntity.is_on` (switch.py lines 34-38). -/
def switchIsOn (getValue : Payload → Option Bool)
    (data : Option Payload) : Option Bool :=
  match data with
  | none => none
  | some payload => getValue payload

/-! ### Debug sensors for config-less devices (sensor.py) -/

/-- `HomeWhizFunctionSensor.native_value` (sensor.py lines 134-147):
`None` payload gives `None`; a dict payload is looked up at the function
key; a byte payload gives `None`. -/
def functionSensorValue (functionKey : String) (data : Option Payload) :
    Option FuncValue :=
  match data with
  | none => none
  | some (.dict entries) => lookupKey functionKey entries
  | some (.bytes _) => none

/-- Clamped slice start `s = min(max(start, 0), len(raw))` from
`HomeWhizRawHexHeadSensor.native_value` (sensor.py line 176). -/
def clampStart (start : Int) (n : Nat) : Nat :=
  min (max start 0).toNat n

/-- Clamped slice end `e = min(s + max(length, 0), len(raw))` from
`HomeWhizRawHexHeadSensor.native_value` (sensor.py line 177). -/
def clampEnd (start length : Int) (n : Nat) : Nat :=
  min (clampStart start n + (max length 0).toNat) n

/-- `HomeWhizRawHexHeadSensor.native_value` (sensor.py lines 166-178):
`None` for a missing or dict payload, otherwise the hex text of
`raw[s:e]` with the clamped bounds. -/
def rawHexHeadValue (start length : Int) (data : Option Payload) :
    Option (List Char) :=
  match data with
  | none => none
  | some (.dict _) => none
  | some (.bytes raw) =>
      let s := clampStart start raw.length
      let e := clampEnd start length raw.length
      some (bytesHex ((raw.drop s).take (e - s)))

/-- `HomeWhizRawLenSensor.native_value` (sensor.py lines 209-217):
`None` for a missing payload, otherwise the payload's length for either
shape. -/
def rawLenValue (data : Option Payload) : Option Nat :=
  match data with
  | none => none
  | some (.dict entries) => some entries.length
  | some (.bytes raw) => some raw.length

/-! ### Entity translation key (entity.py) -/

/-- The embedding of Python `str.split(sep)` on character lists: splits at
every occurrence of the separator, keeping empty pieces, so the head of
the result is the prefix before the first separator. -/
def splitChar (sep : Char) : List Char → List (List Char)
  | [] => [[]]
  | c :: cs =>
      if c = sep then [] :: splitChar sep cs
      else (c :: (splitChar sep cs).headD []) :: (splitChar sep cs).tail

/-- `HomeWhizEntity.translation_key` (entity.py lines 84-95):
`self.entity_key.lower().split("#")[0]`. -/
def translationKey (entityKey : List Char) : List Char :=
  (splitChar '#' (entityKey.map Char.toLower)).headD []

/-! ### Bluetooth config-flow steps (config_flow.py) -/

/-- The device-name prefix "HwZ" that marks a supported HomeWhiz device. -/
def hwzPrefix : List Char := ['H', 'w', 'Z']

/-- Outcome of the Bluetooth discovery step. -/
inductive BtStepResult where
  | abort (reason : String)
  | proceedConnect (address name : List Char)
  deriving DecidableEq, Repr

/-- `TiltConfigFlow.async_step_bluetooth` (config_flow.py lines 76-87):
abort when the address is already configured, abort with "not_supported"
when the advertised name does not start with "HwZ", otherwise continue
to the connect step. -/
def asyncStepBluetooth (alreadyConfigured : Bool)
    (address name : List Char) : BtStepResult :=
  if alreadyConfigured then .abort "already_configured"
  else if ¬ hwzPrefix.isPrefixOf name then .abort "not_supported"
  else .proceedConnect address name

/-- First-match lookup of an address in the discovered-devices
association list (the model of `self._discovered_bt_devices`). -/
def lookupAddr (a : List Char) :
    List (List Char × List Char) → Option (List Char)
  | [] => none
  | (a', n) :: rest => if a' = a then some n else lookupAddr a rest

/-- The discovery scan of `async_step_select_bluetooth_device`
(config_flow.py lines 106-112): each advertised (address, name) pair is
skipped when the address is already configured or already discovered,
recorded when the name starts with "HwZ", and dropped otherwise. -/
def updateDiscovered (currentIds : List (List Char))
    (acc : List (List Char × List Char)) :
    List (List Char × List Char) → List (List Char × List Char)
  | [] => acc
  | (a, n) :: rest =>
      if a ∈ currentIds ∨ (lookupAddr a acc).isSome then
        updateDiscovered currentIds acc rest
      else if hwzPrefix.isPrefixOf n then
        updateDiscovered currentIds (acc ++ [(a, n)]) rest
      else
        updateDiscovered currentIds acc rest

/-- Outcome of the manual Bluetooth device-selection step. -/
inductive SelectBtResult where
  | abort (reason : String)
  | showDeviceForm (devices : List (List Char × List Char))
  deriving DecidableEq, Repr

/-- `TiltConfigFlow.async_step_select_bluetooth_device` without user
input (config_flow.py lines 106-120): refresh the discovered map, abort
when it is empty, otherwise offer exactly the discovered devices. -/
def asyncStepSelectBluetoothDevice (currentIds : List (List Char))
    (acc infos : List (List Char × List Char)) : SelectBtResult :=
  let discovered := updateDiscovered currentIds acc infos
  if discovered.length = 0 then .abort "no_devices_found"
  else .showDeviceForm discovered

/-! ### Appliance data model (api.py / appliance_config.py, via their
uses in the sources)

api.py and appliance_config.py are not among the given sources; their
dataclasses are modelled from how the given sources use them.  List and
blob element contents never matter to any claim and are modelled as
numeric blobs. -/

/-- Modelled from the spec: `IdExchangeResponse` carries the appliance
id (`appId`), the only field the given sources read. -/
structure IdExchangeResponse where
  appId : String
  deriving DecidableEq, Repr

/-- `CloudConfig` (config_flow.py lines 35-38). -/
structure CloudConfig where
  username : String
  password : String
  deriving DecidableEq, Repr

/-- Modelled from the spec: `ApplianceInfo` with the fields the given
sources read (applianceId, name, and the is_bt flag used to filter the
cloud device list). -/
structure ApplianceInfo where
  applianceId : String
  name : String
  isBt : Bool
  deriving DecidableEq, Repr

/-- Modelled from the spec: `ApplianceConfiguration`
(appliance_config.py is not among the sources).  The `appliances`,
`functions` and `controls` lists appear in the minimal-config fallbacks
of helper.py; the optional fields are the ones `has_real_config`
(config_flow.py lines 50-59) probes with `getattr(..., None)`. -/
structure ApplianceConfiguration where
  appliances : List Nat
  functions : List Nat
  controls : List Nat
  program : Option Nat := none
  subPrograms : Option (List Nat) := none
  monitorings : Option (List Nat) := none
  deviceStates : Option Nat := none
  commands : Option Nat := none
  deriving DecidableEq, Repr

/-- The minimal configuration helper.py falls back to:
`from_dict(ApplianceConfiguration, {"appliances": [], "functions": [],
"controls": []})`. -/
def minimalConfig : ApplianceConfiguration :=
  { appliances := [], functions := [], controls := [] }

/-- Modelled from the spec: `ApplianceContents` with the two fields the
given sources use, a configuration and a localization dict. -/
structure ApplianceContents where
  config : ApplianceConfiguration
  localization : List (String × String)
  deriving DecidableEq, Repr

/-- The value stored in `EntryData.contents` (typed `Any` in
config_flow.py): either a real `ApplianceContents` object, or the plain
dict `{"localization": ..., "config": None}` built by the cloud-flow
fallback (config_flow.py line 266). -/
inductive ContentsValue where
  | obj (contents : ApplianceContents)
  | locOnlyDict (localization : List (String × String))
  deriving DecidableEq, Repr

/-- `EntryData` (config_flow.py lines 41-47). -/
structure EntryData where
  ids : IdExchangeResponse
  contents : ContentsValue
  appliance_info : Option ApplianceInfo
  cloud_config : Option CloudConfig
  config_missing : Bool := false
  deriving DecidableEq, Repr

/-- `has_real_config` (config_flow.py lines 50-59): true when the config
has a program, a nonempty subPrograms or monitorings list, deviceStates,
or commands. -/
def hasRealConfig (contents : ApplianceContents) : Bool :=
  let config := contents.config
  config.program.isSome
  || (match config.subPrograms with
      | some l => decide (l.length > 0)
      | none => false)
  || (match config.monitorings with
      | some l => decide (l.length > 0)
      | none => false)
  || config.deviceStates.isSome
  || config.commands.isSome

/-! ### Config-entry storage shapes and build_entry_data (helper.py)

A persisted config entry holds serialized dicts.  The serialized blobs
fed to dacite's `from_dict` are modelled as numeric tags, and the
`from_dict` deserializers themselves (external library code) are passed
in as parameters returning `Except`, an exception modelled as the
`error` case. -/

/-- A serialized dict blob handed to a `from_dict` deserializer. -/
structure RawDict where
  tag : Nat
  deriving DecidableEq, Repr

/-- A non-dict legacy serialized contents blob. -/
structure RawContents where
  tag : Nat
  deriving DecidableEq, Repr

/-- The shape of `contents_dict.get("config")` in helper.py lines 41-43:
the key is absent or `None`, present but not a dict, or a dict. -/
inductive StoredConfigField where
  | missing
  | notDict (blob : Nat)
  | dictVal (d : RawDict)
  deriving DecidableEq, Repr

/-- The shape of `entry.data["contents"]` (helper.py line 37): a dict
with a config field and an optional localization key, or a non-dict
legacy value. -/
inductive StoredContents where
  | dict (config : StoredConfigField)
      (localization : Option (List (String × String)))
  | notDict (blob : RawContents)
  deriving DecidableEq, Repr

/-- The persisted `entry.data` fields read by helper.py and the platform
setup functions.  `config_missing` is `none` when the key is absent. -/
structure StoredEntry where
  ids : RawDict
  cloud_config : Option RawDict
  contents : StoredContents
  appliance_info : Option RawDict
  config_missing : Option Bool
  deriving DecidableEq, Repr

/-- The external dacite `from_dict` deserializers used by helper.py,
passed in as parameters; a raised exception is the `error` case. -/
structure Deserializers where
  fromDictIds : RawDict → Except String IdExchangeResponse
  fromDictCloud : RawDict → Except String CloudConfig
  fromDictConfig : RawDict → Except String ApplianceConfiguration
  fromDictContents : RawContents → Except String ApplianceContents
  fromDictInfo : RawDict → Except String ApplianceInfo

/-- The contents reconstruction of `build_entry_data` (helper.py lines
37-91): a dict contents is rebuilt from its config and localization
keys, with the minimal configuration substituted when the config is
absent, not a dict, or fails to deserialize; a non-dict contents is
deserialized directly, falling back to the minimal contents on failure.
No branch raises. -/
def reconstructContents (f : Deserializers) : StoredContents → ApplianceContents
  | .dict cfgField locField =>
      let config :=
        match cfgField with
        | .dictVal d =>
            match f.fromDictConfig d with
            | .ok c => c
            | .error _ => minimalConfig
        | .missing => minimalConfig
        | .notDict _ => minimalConfig
      { config := config, localization := locField.getD [] }
  | .notDict blob =>
      match f.fromDictContents blob with
      | .ok c => c
      | .error _ => { config := minimalConfig, localization := [] }

/-- The cloud_config reconstruction of helper.py lines 31-33: skipped
when the key is absent, otherwise `from_dict` with errors propagating. -/
def cloudOf (f : Deserializers) (entry : StoredEntry) :
    Except String (Option CloudConfig) :=
  match entry.cloud_config with
  | none => .ok none
  | some d =>
      match f.fromDictCloud d with
      | .ok c => .ok (some c)
      | .error e => .error e

/-- The appliance_info reconstruction of helper.py lines 94-96: skipped
when the key is absent, otherwise `from_dict` with errors propagating. -/
def infoOf (f : Deserializers) (entry : StoredEntry) :
    Except String (Option ApplianceInfo) :=
  match entry.appliance_info with
  | none => .ok none
  | some d =>
      match f.fromDictInfo d with
      | .ok i => .ok (some i)
      | .error e => .error e

/-- `build_entry_data` (helper.py lines 18-107): deserialize ids and
cloud_config (errors propagate), reconstruct the contents (errors
swallowed), deserialize appliance_info (errors propagate), default the
config_missing flag to false. -/
def buildEntryData (f : Deserializers) (entry : StoredEntry) :
    Except String EntryData :=
  match f.fromDictIds entry.ids with
  | .error e => .error e
  | .ok ids =>
      match cloudOf f entry with
      | .error e => .error e
      | .ok cloudConfig =>
          let contents := reconstructContents f entry.contents
          match infoOf f entry with
          | .error e => .error e
          | .ok applianceInfo =>
              .ok { ids := ids
                    contents := .obj contents
                    appliance_info := applianceInfo
                    cloud_config := cloudConfig
                    config_missing := entry.config_missing.getD false }

/-! ### Cloud device-selection step (config_flow.py lines 220-290) -/

/-- Outcome of submitting a device in the cloud-selection step. -/
inductive CloudSelectResult where
  | createEntry (title : String) (data : EntryData)
  | showFormError (error : String)
  deriving DecidableEq, Repr

/-- The user-input branch of
`TiltConfigFlow.async_step_select_cloud_device` (config_flow.py lines
226-273), as a function of the two fetch outcomes: a successful
contents fetch creates an entry with the fetched contents and
`config_missing = not has_real_config(contents)`; a `RequestError`
falls back to a localization-only fetch and, when that succeeds,
creates an entry whose contents is the dict
`{"localization": ..., "config": None}` with `config_missing=True`;
when it also fails the form is re-shown with the "cannot_connect"
error. -/
def asyncStepSelectCloudDevice (appliance : ApplianceInfo)
    (cloudConfig : Option CloudConfig)
    (fetchContents : Except Unit ApplianceContents)
    (fetchLoc : Except Unit (List (String × String))) : CloudSelectResult :=
  match fetchContents with
  | .ok contents =>
      .createEntry appliance.name
        { ids := { appId := appliance.applianceId }
          contents := .obj contents
          appliance_info := some appliance
          cloud_config := cloudConfig
          config_missing := !(hasRealConfig contents) }
  | .error _ =>
      match fetchLoc with
      | .ok localization =>
          .createEntry appliance.name
            { ids := { appId := appliance.applianceId }
              contents := .locOnlyDict localization
              appliance_info := some appliance
              cloud_config := cloudConfig
              config_missing := true }
      | .error _ => .showFormError "cannot_connect"

/-! ### Platform entity setup (sensor.py / switch.py / binary_sensor.py)

`generate_controls_from_config` lives in appliance_controls.py, which is
not among the sources; it is passed in as a parameter returning the
generated controls, classified by the class tags the isinstance filters
of the three platforms dispatch on. -/

/-- The control classes of appliance_controls.py that the three
platforms' isinstance filters distinguish. -/
inductive ControlKind where
  | timeK
  | enumK
  | numericK
  | debugK
  | summedTimestampK
  | stateAwareRemainingTimeK
  | boolBitmaskK
  | boolCompareK
  | writeBooleanK
  deriving DecidableEq, Repr

/-- A control produced by `generate_controls_from_config`: its class tag
and its key. -/
structure ControlDesc where
  kind : ControlKind
  key : String
  deriving DecidableEq, Repr

/-- The sensor-platform isinstance filter (sensor.py lines 266-280). -/
def isSensorControl (c : ControlDesc) : Bool :=
  match c.kind with
  | .timeK | .enumK | .numericK | .debugK
  | .summedTimestampK | .stateAwareRemainingTimeK => true
  | _ => false

/-- The binary-sensor isinstance filter (binary_sensor.py lines 74-78). -/
def isBinarySensorControl (c : ControlDesc) : Bool :=
  match c.kind with
  | .boolBitmaskK | .boolCompareK => true
  | _ => false

/-- The switch isinstance filter (switch.py line 73). -/
def isSwitchControl (c : ControlDesc) : Bool :=
  match c.kind with
  | .writeBooleanK => true
  | _ => false

/-- An entity registered by the sensor platform. -/
inductive SensorPlatformEntity where
  | controlSensor (key : String)
  | rawLen
  | rawHexHead (start length : Int)
  | functionSensor (functionKey label : String)
      (unit icon deviceClass : Option String)
  deriving DecidableEq, Repr

/-- True exactly for the control-based sensor entities. -/
def isControlSensor : SensorPlatformEntity → Bool
  | .controlSensor _ => true
  | _ => false

/-- The `FUNCTION_SENSORS` table (sensor.py lines 36-46): function key,
label, unit, icon, device class. -/
def FUNCTION_SENSORS :
    List (String × String × Option String × Option String × Option String) :=
  [ ("STT_CO2", "CO2", some "ppm", some "mdi:molecule-co2", some "co2"),
    ("STT_HUMIDITY", "Humidity", some "%", some "mdi:water-percent", none),
    ("STT_TEMPERATURE", "Temperature", some "°C", some "mdi:thermometer", none),
    ("STT_RAW_HUMIDITY", "Raw Humidity", some "%", some "mdi:water-outline", none),
    ("STT_RAW_TEMPERATURE", "Raw Temperature", some "°C",
      some "mdi:thermometer-lines", none),
    ("STT_CO2_LEVEL", "CO2 Level", none, none, some "enum"),
    ("STT_HEALTH_STATUS", "Health Status", none, none, some "enum"),
    ("ATR_BRIGHTNESS", "Brightness", none, some "mdi:brightness-6", none),
    ("ATR_SLEEP_MODE", "Sleep Mode", none, some "mdi:sleep", none) ]

/-- One `HomeWhizFunctionSensor` per `FUNCTION_SENSORS` entry (sensor.py
lines 239-251). -/
def functionSensorEntities : List SensorPlatformEntity :=
  FUNCTION_SENSORS.map
    (fun p => .functionSensor p.1 p.2.1 p.2.2.1 p.2.2.2.1 p.2.2.2.2)

/-- What a platform's `async_setup_entry` did: the entities it passed to
`async_add_entities`, and whether it invoked
`generate_controls_from_config`. -/
structure PlatformSetupResult (E : Type) where
  entities : List E
  calledGenerate : Bool
  deriving DecidableEq, Repr

/-- The attribute access `data.contents.config`: on the dict-shaped
fallback contents this would raise an AttributeError. -/
def configOf (data : EntryData) : Except String ApplianceConfiguration :=
  match data.contents with
  | .obj c => .ok c.config
  | .locOnlyDict _ => .error "AttributeError"

/-- `sensor.async_setup_entry` (sensor.py lines 220-294): build the
entry data; when `config_missing` is stored as `True` register the
raw-length sensor, the raw-hex-head sensor with start 0 and length 160,
and the function sensors (added only when the list is nonempty), without
generating controls; otherwise generate controls (exceptions propagate,
there is no try block) and register one control sensor per control
passing the sensor filter. -/
def sensorAsyncSetupEntry (f : Deserializers)
    (gen : ApplianceConfiguration → Except String (List ControlDesc))
    (entry : StoredEntry) :
    Except String (PlatformSetupResult SensorPlatformEntity) :=
  match buildEntryData f entry with
  | .error e => .error e
  | .ok data =>
      if entry.config_missing = some true then
        .ok { entities := [.rawLen, .rawHexHead 0 160]
                ++ (if functionSensorEntities.isEmpty then []
                    else functionSensorEntities)
              calledGenerate := false }
      else
        match configOf data with
        | .error e => .error e
        | .ok config =>
            match gen config with
            | .error e => .error e
            | .ok controls =>
                .ok { entities := (controls.filter isSensorControl).map
                        (fun c => .controlSensor c.key)
                      calledGenerate := true }

/-- `switch.async_setup_entry` (switch.py lines 47-82): build the entry
data; when `config_missing` is stored as `True` return without entities
and without generating controls; otherwise generate controls inside a
try block (on an exception nothing is registered) and register one
switch per `WriteBooleanControl`. -/
def switchAsyncSetupEntry (f : Deserializers)
    (gen : ApplianceConfiguration → Except String (List ControlDesc))
    (entry : StoredEntry) :
    Except String (PlatformSetupResult ControlDesc) :=
  match buildEntryData f entry with
  | .error e => .error e
  | .ok data =>
      if entry.config_missing = some true then
        .ok { entities := [], calledGenerate := false }
      else
        match configOf data with
        | .error _ => .ok { entities := [], calledGenerate := false }
        | .ok config =>
            match gen config with
            | .error _ => .ok { entities := [], calledGenerate := true }
            | .ok controls =>
                .ok { entities := controls.filter isSwitchControl
                      calledGenerate := true }

/-- `binary_sensor.async_setup_entry` (binary_sensor.py lines 45-91):
build the entry data; when `config_missing` is stored as `True` return
without entities and without generating controls; otherwise generate
controls inside a try block (on an exception nothing is registered) and
register one binary sensor per boolean control. -/
def binarySensorAsyncSetupEntry (f : Deserializers)
    (gen : ApplianceConfiguration → Except String (List ControlDesc))
    (entry : StoredEntry) :
    Except String (PlatformSetupResult ControlDesc) :=
  match buildEntryData f entry with
  | .error e => .error e
  | .ok data =>
      if entry.config_missing = some true then
        .ok { entities := [], calledGenerate := false }
      else
        match configOf data with
        | .error _ => .ok { entities := [], calledGenerate := false }
        | .ok config =>
            match gen config with
            | .error _ => .ok { entities := [], calledGenerate := true }
            | .ok controls =>
                .ok { entities := controls.filter isBinarySensorControl
                      calledGenerate := true }

/-! ### Control-schema value decoding (appliance_controls.py) -/

/-- A value produced by a control's `get_value`. -/
inductive ControlValue where
  | boolV (b : Bool)
  | strV (s : String)
  | numV (n : Nat)
  deriving DecidableEq, Repr

/-- First-match lookup in an enum option table keyed by byte value. -/
def lookupNat {α : Type} (k : Nat) : List (Nat × α) → Option α
  | [] => none
  | (k', v) :: rest => if k' = k then some v else lookupNat k rest

/-- Modelled from the spec: appliance_controls.py is not among the
sources; per the spec its `get_value` implementations are "conditional
dispatch over primitive types (bitmask extraction, enum lookup, linear
byte offsets)". Each control therefore reads one linear byte offset and
either extracts a bit, looks the byte up in an enum table, or scales it
numerically. -/
inductive PrimitiveControl where
  | boolBitmask (index bit : Nat)
  | enumRead (index : Nat) (options : List (Nat × String))
  | numericRead (index : Nat) (factor : Nat)
  deriving DecidableEq, Repr

/-- The single linear byte offset a primitive control reads. -/
def controlReadIndex : PrimitiveControl → Nat
  | .boolBitmask i _ => i
  | .enumRead i _ => i
  | .numericRead i _ => i

/-- Modelled from the spec: the `get_value` dispatch — read the byte at
the control's offset, then extract the addressed bit, look the byte up
in the enum table, or scale it. -/
def controlGetValue (c : PrimitiveControl) (raw : List Nat) :
    Option ControlValue :=
  match c with
  | .boolBitmask i bit =>
      (raw[i]?).map (fun b => .boolV (decide (b / 2 ^ bit % 2 = 1)))
  | .enumRead i options =>
      (raw[i]?).bind (fun b => (lookupNat b options).map .strV)
  | .numericRead i factor =>
      (raw[i]?).map (fun b => .numV (b * factor))

/-! ### Concrete fixtures used by the witness theorems -/

/-- Deserializers whose config and contents deserializers raise, the
rest succeeding. -/
def fdsFail : Deserializers :=
  { fromDictIds := fun _ => .ok { appId := "appliance-1" }
    fromDictCloud := fun _ => .ok { username := "u", password := "p" }
    fromDictConfig := fun _ => .error "dacite"
    fromDictContents := fun _ => .error "dacite"
    fromDictInfo := fun _ =>
      .ok { applianceId := "appliance-1", name := "n", isBt := false } }

/-- A stored entry whose contents dict carries a config dict (which
`fdsFail` fails to deserialize). -/
def entryDictBadConfig : StoredEntry :=
  { ids := { tag := 0 }
    cloud_config := none
    contents := .dict (.dictVal { tag := 1 }) none
    appliance_info := none
    config_missing := none }

/-- A stored entry for a read-only device: no config in the contents
dict and `config_missing` stored as `True`. -/
def entryMissingConfig : StoredEntry :=
  { ids := { tag := 0 }
    cloud_config := none
    contents := .dict .missing none
    appliance_info := none
    config_missing := some true }

/-- A control generator returning no controls. -/
def genNone : ApplianceConfiguration → Except String (List ControlDesc) :=
  fun _ => .ok []

/-- A concrete cloud appliance. -/
def appliance0 : ApplianceInfo :=
  { applianceId := "a1", name := "Air Purifier", isBt := false }

end HomeWhiz

namespace HomeWhiz

theorem bytesHex_length (bs : List Nat) : (bytesHex bs).length = 2 * bs.length := by
  induction bs with
  | nil => rfl
  | cons b rest ih =>
      simp [bytesHex, byteHex, List.flatten] at ih ⊢
      omega

theorem splitChar_headD (sep : Char) (cs : List Char) :
    (splitChar sep cs).headD [] = cs.takeWhile (fun c => c ≠ sep) := by
  induction cs with
  | nil => rfl
  | cons c rest ih =>
      by_cases hc : c = sep
      · rw [List.takeWhile_cons_of_neg (by simp [hc])]
        simp [splitChar, hc]
      · rw [List.takeWhile_cons_of_pos (by simp [hc]), ← ih]
        simp [splitChar, hc]

theorem updateDiscovered_hwz (currentIds : List (List Char))
    (infos acc : List (List Char × List Char))
    (hAcc : ∀ p ∈ acc, hwzPrefix.isPrefixOf p.2 = true) :
    ∀ p ∈ updateDiscovered currentIds acc infos,
      hwzPrefix.isPrefixOf p.2 = true := by
  induction infos generalizing acc with
  | nil => exact hAcc
  | cons info rest ih =>
      obtain ⟨a, n⟩ := info
      by_cases hskip : a ∈ currentIds ∨ (lookupAddr a acc).isSome
      · simpa [updateDiscovered, hskip] using ih acc hAcc
      · by_cases hn : hwzPrefix.isPrefixOf n
        · have hAcc' : ∀ p ∈ acc ++ [(a, n)], hwzPrefix.isPrefixOf p.2 = true := by
            intro p hp
            rcases List.mem_append.mp hp with h | h
            · exact hAcc p h
            · simp at h
              simp [h, hn]
          simpa [updateDiscovered, hskip, hn] using ih (acc ++ [(a, n)]) hAcc'
        · simpa [updateDiscovered, hskip, hn] using ih acc hAcc

/-- C1: for sensor, binary-sensor and switch entities built from a control,
a `None` coordinator payload reports `None`, and any present payload
reports exactly the control's `get_value` of that payload, untransformed. -/
theorem control_entity_values_pass_through {V : Type}
    (getValue : Payload → Option V) (getBool : Payload → Option Bool)
    (payload : Payload) :
    sensorNativeValue getValue none = none
    ∧ sensorNativeValue getValue (some payload) = getValue payload
    ∧ binarySensorIsOn getBool none = none
    ∧ binarySensorIsOn getBool (some payload) = getBool payload
    ∧ switchIsOn getBool none = none
    ∧ switchIsOn getBool (some payload) = getBool payload :=
  ⟨rfl, rfl, rfl, rfl, rfl, rfl⟩

/-- C5: the debug sensors are total over both payload shapes: the function
sensor reads the dict at its key and ignores byte payloads, the raw-hex
sensor renders a clamped slice of byte payloads and ignores dicts, and
the raw-length sensor reports the length of either shape. -/
theorem debug_sensors_total_over_payload_shapes (functionKey : String)
    (entries : List (String × FuncValue)) (raw : List Nat)
    (start length : Int) :
    functionSensorValue functionKey none = none
    ∧ functionSensorValue functionKey (some (.dict entries)) = lookupKey functionKey entries
    ∧ functionSensorValue functionKey (some (.bytes raw)) = none
    ∧ rawHexHeadValue start length none = none
    ∧ rawHexHeadValue start length (some (.dict entries)) = none
    ∧ rawHexHeadValue start length (some (.bytes raw))
        = some (bytesHex ((raw.drop (clampStart start raw.length)).take
            (clampEnd start length raw.length - clampStart start raw.length)))
    ∧ rawLenValue none = none
    ∧ rawLenValue (some (.dict entries)) = some entries.length
    ∧ rawLenValue (some (.bytes raw)) = some raw.length :=
  ⟨rfl, rfl, rfl, rfl, rfl, rfl, rfl, rfl, rfl⟩

/-- C9: the raw-hex-head clamping is safe for every integer start and
length: the bounds satisfy `0 ≤ s ≤ e ≤ len(raw)` so the slice is always
defined, and the hex text has at most `2 * max(length, 0)` characters. -/
theorem raw_hex_head_clamp_safe (start length : Int) (raw : List Nat) :
    0 ≤ clampStart start raw.length
    ∧ clampStart start raw.length ≤ clampEnd start length raw.length
    ∧ clampEnd start length raw.length ≤ raw.length
    ∧ ∃ h, rawHexHeadValue start length (some (.bytes raw)) = some h
        ∧ h.length ≤ 2 * (max length 0).toNat := by
  refine ⟨Nat.zero_le _, ?_, ?_, ?_⟩
  · unfold clampEnd clampStart
    omega
  · unfold clampEnd
    omega
  · refine ⟨_, rfl, ?_⟩
    rw [bytesHex_length]
    have hlen : ((raw.drop (clampStart start raw.length)).take
        (clampEnd start length raw.length - clampStart start raw.length)).length
        ≤ clampEnd start length raw.length - clampStart start raw.length := by
      simp [List.length_take]
    unfold clampEnd clampStart at hlen ⊢
    omega

/-- C10: the translation key is the entity key lowercased and truncated
at the first '#' (the whole lowercased key when no '#' occurs), so it
never contains '#'. -/
theorem translation_key_truncates_at_hash (entityKey : List Char) :
    translationKey entityKey
      = (entityKey.map Char.toLower).takeWhile (fun c => c ≠ '#')
    ∧ '#' ∉ translationKey entityKey := by
  refine ⟨by rw [translationKey, splitChar_headD], ?_⟩
  rw [translationKey, splitChar_headD]
  intro hmem
  have hp := List.mem_takeWhile_imp hmem
  simp at hp

/-- C6: a Bluetooth discovery of a not-yet-configured device aborts with
"not_supported" exactly when the advertised name does not start with
"HwZ", and the manual selection step only ever offers devices whose
advertised name starts with "HwZ". -/
theorem bluetooth_flow_filters_hwz
    (address name : List Char) (currentIds : List (List Char))
    (acc infos : List (List Char × List Char))
    (hAcc : ∀ p ∈ acc, hwzPrefix.isPrefixOf p.2 = true) :
    (asyncStepBluetooth false address name = .abort "not_supported"
       ↔ hwzPrefix.isPrefixOf name = false)
    ∧ (∀ devices, asyncStepSelectBluetoothDevice currentIds acc infos
         = .showDeviceForm devices →
         ∀ p ∈ devices, hwzPrefix.isPrefixOf p.2 = true) := by
  constructor
  · by_cases hn : hwzPrefix.isPrefixOf name
    · simp [asyncStepBluetooth, hn]
    · simp [asyncStepBluetooth, hn]
  · intro devices hdev p hp
    unfold asyncStepSelectBluetoothDevice at hdev
    by_cases hlen : (updateDiscovered currentIds acc infos).length = 0
    · simp [hlen] at hdev
    · simp [hlen] at hdev
      rw [← hdev] at hp
      exact updateDiscovered_hwz currentIds infos acc hAcc p hp

/-- Witness for C6 at a concrete discovery and scan. -/
theorem bluetooth_flow_filters_hwz_witness :
    (asyncStepBluetooth false ['a'] ['H', 'w', 'Z', '1'] = .abort "not_supported"
       ↔ hwzPrefix.isPrefixOf ['H', 'w', 'Z', '1'] = false)
    ∧ (∀ devices, asyncStepSelectBluetoothDevice [] [] [(['a'], ['H', 'w', 'Z', '1'])]
         = .showDeviceForm devices →
         ∀ p ∈ devices, hwzPrefix.isPrefixOf p.2 = true) :=
  bluetooth_flow_filters_hwz ['a'] ['H', 'w', 'Z', '1'] [] []
    [(['a'], ['H', 'w', 'Z', '1'])] (by simp)

theorem buildEntryData_ok (f : Deserializers) (entry : StoredEntry)
    (ids₀ : IdExchangeResponse)
    (hIds : f.fromDictIds entry.ids = .ok ids₀)
    (hCloud : entry.cloud_config = none)
    (hInfo : entry.appliance_info = none) :
    buildEntryData f entry
      = .ok { ids := ids₀
              contents := .obj (reconstructContents f entry.contents)
              appliance_info := none
              cloud_config := none
              config_missing := entry.config_missing.getD false } := by
  simp [buildEntryData, cloudOf, infoOf, hIds, hCloud, hInfo]

/-- C2: when the contents dict's config fails to deserialize, and when a
non-dict contents fails to deserialize, `build_entry_data` still
returns, and the returned contents' config is the minimal configuration
with empty appliances, functions and controls lists. -/
theorem build_entry_data_swallows_contents_errors
    (f : Deserializers) (entry : StoredEntry) (ids₀ : IdExchangeResponse)
    (hIds : f.fromDictIds entry.ids = .ok ids₀)
    (hCloud : entry.cloud_config = none)
    (hInfo : entry.appliance_info = none)
    (hFail : (∃ d loc err, entry.contents = .dict (.dictVal d) loc
                ∧ f.fromDictConfig d = .error err)
           ∨ (∃ b err, entry.contents = .notDict b
                ∧ f.fromDictContents b = .error err)) :
    ∃ ed, buildEntryData f entry = .ok ed
      ∧ (∃ c, ed.contents = .obj c ∧ c.config = minimalConfig)
      ∧ minimalConfig.appliances = []
      ∧ minimalConfig.functions = []
      ∧ minimalConfig.controls = [] := by
  refine ⟨_, buildEntryData_ok f entry ids₀ hIds hCloud hInfo,
    ⟨reconstructContents f entry.contents, rfl, ?_⟩, rfl, rfl, rfl⟩
  rcases hFail with ⟨d, loc, err, hc, hf⟩ | ⟨b, err, hc, hf⟩ <;>
    simp [reconstructContents, hc, hf]

/-- Witness for C2 at a concrete entry whose contents config dict fails
to deserialize. -/
theorem build_entry_data_swallows_contents_errors_witness :
    ∃ ed, buildEntryData fdsFail entryDictBadConfig = .ok ed
      ∧ (∃ c, ed.contents = .obj c ∧ c.config = minimalConfig)
      ∧ minimalConfig.appliances = []
      ∧ minimalConfig.functions = []
      ∧ minimalConfig.controls = [] :=
  build_entry_data_swallows_contents_errors fdsFail entryDictBadConfig
    { appId := "appliance-1" } rfl rfl rfl
    (Or.inl ⟨{ tag := 1 }, none, "dacite", rfl, rfl⟩)

/-- C3: `build_entry_data` always returns an `ApplianceContents` in the
contents field; a dict contents is rebuilt from its config and
localization keys (localization defaulting to the empty dict, a missing
or non-dict config replaced by the minimal configuration), and a
non-dict contents is deserialized directly. -/
theorem build_entry_data_reconstructs_contents
    (f : Deserializers) (entry : StoredEntry) (ids₀ : IdExchangeResponse)
    (hIds : f.fromDictIds entry.ids = .ok ids₀)
    (hCloud : entry.cloud_config = none)
    (hInfo : entry.appliance_info = none) :
    ∃ ed c, buildEntryData f entry = .ok ed
      ∧ ed.contents = .obj c
      ∧ (∀ loc d cfg, entry.contents = .dict (.dictVal d) loc →
           f.fromDictConfig d = .ok cfg →
           c = { config := cfg, localization := loc.getD [] })
      ∧ (∀ loc, entry.contents = .dict .missing loc →
           c = { config := minimalConfig, localization := loc.getD [] })
      ∧ (∀ blob loc, entry.contents = .dict (.notDict blob) loc →
           c = { config := minimalConfig, localization := loc.getD [] })
      ∧ (∀ blob c', entry.contents = .notDict blob →
           f.fromDictContents blob = .ok c' → c = c') := by
  refine ⟨_, reconstructContents f entry.contents,
    buildEntryData_ok f entry ids₀ hIds hCloud hInfo, rfl, ?_, ?_, ?_, ?_⟩
  · intro loc d cfg hc hf
    simp [reconstructContents, hc, hf]
  · intro loc hc
    simp [reconstructContents, hc]
  · intro blob loc hc
    simp [reconstructContents, hc]
  · intro blob c' hc hf
    simp [reconstructContents, hc, hf]

/-- Witness for C3 at a concrete entry. -/
theorem build_entry_data_reconstructs_contents_witness :
    ∃ ed c, buildEntryData fdsFail entryDictBadConfig = .ok ed
      ∧ ed.contents = .obj c
      ∧ (∀ loc d cfg, entryDictBadConfig.contents = .dict (.dictVal d) loc →
           fdsFail.fromDictConfig d = .ok cfg →
           c = { config := cfg, localization := loc.getD [] })
      ∧ (∀ loc, entryDictBadConfig.contents = .dict .missing loc →
           c = { config := minimalConfig, localization := loc.getD [] })
      ∧ (∀ blob loc, entryDictBadConfig.contents = .dict (.notDict blob) loc →
           c = { config := minimalConfig, localization := loc.getD [] })
      ∧ (∀ blob c', entryDictBadConfig.contents = .notDict blob →
           fdsFail.fromDictContents blob = .ok c' → c = c') :=
  build_entry_data_reconstructs_contents fdsFail entryDictBadConfig
    { appId := "appliance-1" } rfl rfl rfl

/-- C4: with `config_missing` stored as `True`, the switch and
binary-sensor setups register nothing and never generate controls,
while the sensor setup registers exactly the raw-length sensor, the
raw-hex-head sensor with start 0 and length 160, and one function
sensor per `FUNCTION_SENSORS` entry (nine of them), none of them
control-based. -/
theorem config_missing_registers_debug_sensors_only
    (f : Deserializers) (entry : StoredEntry)
    (gen : ApplianceConfiguration → Except String (List ControlDesc))
    (ed : EntryData)
    (hBuild : buildEntryData f entry = .ok ed)
    (hMissing : entry.config_missing = some true) :
    sensorAsyncSetupEntry f gen entry
      = .ok { entities := [.rawLen, .rawHexHead 0 160] ++ functionSensorEntities
              calledGenerate := false }
    ∧ switchAsyncSetupEntry f gen entry
      = .ok { entities := [], calledGenerate := false }
    ∧ binarySensorAsyncSetupEntry f gen entry
      = .ok { entities := [], calledGenerate := false }
    ∧ functionSensorEntities = FUNCTION_SENSORS.map
        (fun p => .functionSensor p.1 p.2.1 p.2.2.1 p.2.2.2.1 p.2.2.2.2)
    ∧ FUNCTION_SENSORS.length = 9
    ∧ ∀ e ∈ [SensorPlatformEntity.rawLen, .rawHexHead 0 160]
        ++ functionSensorEntities, isControlSensor e = false := by
  have hne : functionSensorEntities.isEmpty = false := by decide
  refine ⟨?_, ?_, ?_, rfl, rfl, by decide⟩
  · simp [sensorAsyncSetupEntry, hBuild, hMissing, hne]
  · simp [switchAsyncSetupEntry, hBuild, hMissing]
  · simp [binarySensorAsyncSetupEntry, hBuild, hMissing]

/-- Witness for C4 at a concrete read-only entry. -/
theorem config_missing_registers_debug_sensors_only_witness :
    sensorAsyncSetupEntry fdsFail genNone entryMissingConfig
      = .ok { entities := [.rawLen, .rawHexHead 0 160] ++ functionSensorEntities
              calledGenerate := false }
    ∧ switchAsyncSetupEntry fdsFail genNone entryMissingConfig
      = .ok { entities := [], calledGenerate := false }
    ∧ binarySensorAsyncSetupEntry fdsFail genNone entryMissingConfig
      = .ok { entities := [], calledGenerate := false }
    ∧ functionSensorEntities = FUNCTION_SENSORS.map
        (fun p => .functionSensor p.1 p.2.1 p.2.2.1 p.2.2.2.1 p.2.2.2.2)
    ∧ FUNCTION_SENSORS.length = 9
    ∧ ∀ e ∈ [SensorPlatformEntity.rawLen, .rawHexHead 0 160]
        ++ functionSensorEntities, isControlSensor e = false :=
  config_missing_registers_debug_sensors_only fdsFail entryMissingConfig genNone
    { ids := { appId := "appliance-1" }
      contents := .obj { config := minimalConfig, localization := [] }
      appliance_info := none
      cloud_config := none
      config_missing := true } rfl rfl

/-- C7: in the cloud device-selection step, a `RequestError` while
fetching the appliance contents still creates an entry whose contents
is the dict with the fetched localization and a `None` config and whose
config_missing flag is true; only when the localization fetch also
fails is the form re-shown with the "cannot_connect" error. -/
theorem cloud_select_request_error_fallback
    (appliance : ApplianceInfo) (cc : Option CloudConfig)
    (fetchContents : Except Unit ApplianceContents)
    (fetchLoc : Except Unit (List (String × String)))
    (hFail : fetchContents = .error ()) :
    (∀ loc, fetchLoc = .ok loc →
       asyncStepSelectCloudDevice appliance cc fetchContents fetchLoc
         = .createEntry appliance.name
             { ids := { appId := appliance.applianceId }
               contents := .locOnlyDict loc
               appliance_info := some appliance
               cloud_config := cc
               config_missing := true })
    ∧ (fetchLoc = .error () →
       asyncStepSelectCloudDevice appliance cc fetchContents fetchLoc
         = .showFormError "cannot_connect") := by
  subst hFail
  constructor
  · intro loc hl
    subst hl
    rfl
  · intro hl
    subst hl
    rfl

/-- Witness for C7 at a concrete appliance and fetch outcomes. -/
theorem cloud_select_request_error_fallback_witness :
    (∀ loc, (Except.ok [("k", "v")] : Except Unit (List (String × String)))
         = .ok loc →
       asyncStepSelectCloudDevice appliance0 none (.error ()) (.ok [("k", "v")])
         = .createEntry appliance0.name
             { ids := { appId := appliance0.applianceId }
               contents := .locOnlyDict loc
               appliance_info := some appliance0
               cloud_config := none
               config_missing := true })
    ∧ ((Except.ok [("k", "v")] : Except Unit (List (String × String)))
         = .error () →
       asyncStepSelectCloudDevice appliance0 none (.error ()) (.ok [("k", "v")])
         = .showFormError "cannot_connect") :=
  cloud_select_request_error_fallback appliance0 none (.error ())
    (.ok [("k", "v")]) rfl

/-- C8: each control's `get_value` dispatches only over the primitive
shapes — bitmask extraction, enum table lookup, numeric scaling — of the
byte read at its one linear offset: payloads agreeing at that offset
decode to the same value. -/
theorem control_get_value_reads_linear_offset
    (c : PrimitiveControl) (raw₁ raw₂ : List Nat)
    (h : raw₁[controlReadIndex c]? = raw₂[controlReadIndex c]?) :
    controlGetValue c raw₁ = controlGetValue c raw₂ := by
  cases c <;> simp only [controlGetValue, controlReadIndex] at h ⊢ <;> rw [h]

/-- Witness for C8 at a concrete control and two concrete payloads. -/
theorem control_get_value_reads_linear_offset_witness :
    controlGetValue (.boolBitmask 0 0) [1]
      = controlGetValue (.boolBitmask 0 0) [1, 2] :=
  control_get_value_reads_linear_offset (.boolBitmask 0 0) [1] [1, 2]
    (by decide)

end HomeWhiz
